import Mathlib

/-!
Verification of the DDL-export module (`api/doc/script/export_db_ddl.py`)
of the Rock-Market-Lab repository.

The Python script is a linear, side-effecting program; we embed it
shallowly: the rows returned by its catalog queries become fields of plain
structures, every string-building step becomes a pure Lean function, and the
process-level behaviour (prints, the single output write, the exit code)
becomes an explicit outcome record computed by a pure function over a
database environment.  Machine integers of the catalog (lengths, precision,
scale) are `Option Nat` (NULL becomes `none`); Python truthiness of such a
value is "present and nonzero", of a string "present and nonempty".
-/

namespace RockMarketLab

/-- One row of the script's `information_schema.columns` query
(`export_db_ddl.py` lines 33-45), in the tuple order the code unpacks. -/
structure Column where
  column_name : String
  data_type : String
  character_maximum_length : Option Nat
  numeric_precision : Option Nat
  numeric_scale : Option Nat
  is_nullable : String
  column_default : Option String
deriving Repr, DecidableEq

/-- One row of the foreign-key query (lines 67-83), in unpacking order. -/
structure ForeignKey where
  column_name : String
  foreign_table_name : String
  foreign_column_name : String
  constraint_name : String
deriving Repr, DecidableEq

/-- Everything the per-table catalog queries of the script return for one
table: columns ordered by `ordinal_position` (the query's ORDER BY),
primary-key column names ordered by `kcu.ordinal_position`, foreign-key rows
(the source query has no ORDER BY), and the raw `pg_indexes` rows
`(indexname, indexdef)` for the table before the script's name filter. -/
structure TableData where
  columns : List Column
  primary_keys : List String
  foreign_keys : List ForeignKey
  indexes : List (String × String)
deriving Repr, DecidableEq

/-- Python truthiness of an int-or-None catalog value: `None` and `0` are
falsy. -/
def truthyNat : Option Nat → Bool
  | none => false
  | some n => decide (n ≠ 0)

/-- Python truthiness of a str-or-None catalog value: `None` and `""` are
falsy. -/
def truthyStr : Option String → Bool
  | none => false
  | some s => decide (s ≠ "")

/-- Python `str.upper()` on the (ASCII) catalog type names: upper-cases
every character. -/
def pyStrUpper (s : String) : String :=
  String.mk (s.data.map Char.toUpper)

/-- Python `sep.join(parts)`. -/
def pyJoin (sep : String) : List String → String
  | [] => ""
  | [a] => a
  | a :: b :: l => a ++ sep ++ pyJoin sep (b :: l)

/-- The data-type dispatch of `get_table_ddl` (lines 97-133): maps the
catalog's `data_type` together with the length/precision/scale columns to
the rendered SQL type token. -/
def mapType (data_type : String) (char_max_len num_precision num_scale : Option Nat) :
    String :=
  if data_type = "character varying" then
    if truthyNat char_max_len then
      "VARCHAR(" ++ toString (char_max_len.getD 0) ++ ")"
    else
      "VARCHAR"
  else if data_type = "character" then
    if truthyNat char_max_len then
      "CHAR(" ++ toString (char_max_len.getD 0) ++ ")"
    else
      "CHAR"
  else if data_type = "numeric" then
    if truthyNat num_precision && truthyNat num_scale then
      "NUMERIC(" ++ toString (num_precision.getD 0) ++ "," ++ toString (num_scale.getD 0) ++ ")"
    else if truthyNat num_precision then
      "NUMERIC(" ++ toString (num_precision.getD 0) ++ ")"
    else
      "NUMERIC"
  else if data_type = "integer" then "INTEGER"
  else if data_type = "bigint" then "BIGINT"
  else if data_type = "smallint" then "SMALLINT"
  else if data_type = "boolean" then "BOOLEAN"
  else if data_type = "date" then "DATE"
  else if data_type = "timestamp without time zone" then "TIMESTAMP"
  else if data_type = "timestamp with time zone" then "TIMESTAMPTZ"
  else if data_type = "text" then "TEXT"
  else if data_type = "json" then "JSON"
  else if data_type = "jsonb" then "JSONB"
  else pyStrUpper data_type

/-- One column-definition line of `get_table_ddl` (lines 94-143): four
spaces, the name, the type token, then `NOT NULL` when the catalog says
`'NO'`, then `DEFAULT <literal>` when a (truthy) default exists. -/
def renderColumn (c : Column) : String :=
  let base :=
    "    " ++ c.column_name ++ " "
      ++ mapType c.data_type c.character_maximum_length c.numeric_precision c.numeric_scale
  let withNull := if c.is_nullable = "NO" then base ++ " NOT NULL" else base
  if truthyStr c.column_default then
    withNull ++ " DEFAULT " ++ c.column_default.getD ""
  else
    withNull

/-- One foreign-key constraint line of `get_table_ddl` (line 155). -/
def fkLine (fk : ForeignKey) : String :=
  "    CONSTRAINT " ++ fk.constraint_name ++ " FOREIGN KEY (" ++ fk.column_name
    ++ ") REFERENCES " ++ fk.foreign_table_name ++ "(" ++ fk.foreign_column_name ++ ")"

/-- `get_table_ddl(cursor, table_name)` (lines 28-164).  Returns `none` when
the column query returns no rows.  The final join reproduces the source's
slice expression verbatim: Python parses
`ddl_lines[:-len(foreign_keys) if foreign_keys else 0]` as a slice whose
stop is `-len(foreign_keys)` when there are foreign keys and `0` otherwise,
so with no foreign keys the joined list is `ddl_lines[:0] = []`. -/
def get_table_ddl (table_name : String) (t : TableData) : Option String :=
  match t.columns with
  | [] => none
  | _ :: _ =>
    let column_definitions := t.columns.map renderColumn
    let ddl_lines :=
      ("CREATE TABLE " ++ table_name ++ " (") :: column_definitions
        ++ (if t.primary_keys.isEmpty then []
            else ["    PRIMARY KEY (" ++ pyJoin (", ") t.primary_keys ++ ")"])
        ++ t.foreign_keys.map fkLine
    let fkCount := t.foreign_keys.length
    let ddl :=
      if fkCount = 0 then
        pyJoin (",\n") (ddl_lines.take 0)
      else
        pyJoin (",\n") (ddl_lines.take (ddl_lines.length - fkCount))
          ++ ",\n" ++ pyJoin (",\n") (ddl_lines.drop (ddl_lines.length - fkCount))
    some (ddl ++ "\n);")

/-- The SQL predicate `indexname LIKE '%_pkey'` of the index query
(line 178): `%` matches any (possibly empty) sequence of characters and `_`
exactly one, so a name matches exactly when it ends in the four characters
`pkey` and has at least one character before them, i.e. length at least
5. -/
def likePctUnderscorePkey (s : String) : Bool :=
  decide (5 ≤ s.data.length)
    && decide (s.data.drop (s.data.length - 4) = ("pkey").data)

/-- The single-quote character of the SQL literal, built from its code
point so the embedding stays plain ASCII names and digits. -/
def sqlQuote : String :=
  String.mk [Char.ofNat 39]

/-- The verbatim text of the index query passed to `cursor.execute` at
lines 171-179, including the un-doubled percent of the SQL literal
`%_pkey`. -/
def indexQuerySql : String :=
  "\n        SELECT\n            indexname,\n            indexdef\n        FROM pg_indexes\n        WHERE schemaname = %s \n            AND tablename = %s\n            AND indexname NOT LIKE "
    ++ sqlQuote ++ "%_pkey" ++ sqlQuote ++ ";\n    "

/-- The driver's client-side placeholder interpolation, applied to the
whole query text whenever parameters are passed to `cursor.execute`:
`%s` consumes the next parameter, `%%` stands for a literal percent, and a
percent followed by any other character makes the call raise a formatting
error (a `ValueError`/`TypeError`-family exception, not a
`psycopg2.Error`) before any SQL is sent; the model uses one canonical
message for it. -/
def pyformatScan : List Char → Nat → Except String Nat
  | [], used => Except.ok used
  | '%' :: [], _used => Except.error "incomplete format"
  | '%' :: c :: rest, used =>
    if c = 's' then pyformatScan rest (used + 1)
    else if c = '%' then pyformatScan rest used
    else Except.error ("unsupported format character " ++ String.mk [c])
  | _ :: rest, used => pyformatScan rest used

/-- `get_indexes_ddl(cursor, table_name)` (lines 167-187).  The call passes
parameters, so the driver interpolates placeholders over the whole query
text first; the un-doubled percent of `%_pkey` (line 178) makes that
interpolation raise on every call, before any SQL runs, so the function
never reaches its result loop.  Were the query ever executed, the rows kept
would be those whose name does NOT match `'%_pkey'`, each definition with
`;` appended. -/
def get_indexes_ddl (t : TableData) : Except String (List String) :=
  match pyformatScan indexQuerySql.data 0 with
  | Except.error e => Except.error e
  | Except.ok _ =>
      Except.ok
        ((t.indexes.filter (fun p => ! likePctUnderscorePkey p.1)).map (fun p => p.2 ++ ";"))

/-- The two exception families the top-level handlers of
`export_database_ddl` distinguish (lines 263-268): `psycopg2.Error` and
every other exception. -/
inductive PyErr
  | dbError (msg : String)
  | otherError (msg : String)
deriving Repr, DecidableEq

/-- The message each top-level handler prints: `Database error: <e>` for a
`psycopg2.Error` (line 264), `Error: <e>` for anything else (line 267). -/
def errLine : PyErr → String
  | PyErr.dbError e => ("Database error: ") ++ e
  | PyErr.otherError e => ("Error: ") ++ e

/-- The document header lines of `export_database_ddl` (lines 222-226). -/
def docHeader (database now : String) (n : Nat) : List String :=
  ["-- Database DDL Export",
   ("-- Database: ") ++ database,
   ("-- Export Date: ") ++ now,
   ("-- Total Tables: ") ++ toString n,
   ""]

/-- A database environment as seen by `export_database_ddl`: the outcome of
the connection attempt, of the table-listing query (names already in the
engine's `ORDER BY table_name` order), and of the per-table catalog queries
(columns, keys and indexes bundled as one `TableData`; a `psycopg2.Error`
raised by any of them becomes `Except.error`).  `write_error` models an
`OSError` raised by opening/writing the output file. -/
structure DbEnv where
  database : String
  connect : Except String Unit
  listing : Except String (List String)
  describe : String → Except String TableData
  write_error : Option String

/-- The observable outcome of one run of the script: the text written to
the destination (`none` when nothing was written), the Python return value
of `export_database_ddl` (`none` is Python `None`), everything printed via
`print()` (which goes to standard output), anything written to the error
stream, and the process exit code. -/
structure ExportRun where
  document : Option String
  retval : Option Nat
  printed : List String
  stderr_out : List String
  exit_code : Nat
deriving Repr

/-- The per-table loop of `export_database_ddl` (lines 228-246): prints the
progress line, appends the `-- Table:` banner and fifty dashes, then runs
the per-table catalog queries (`get_table_ddl`) — a `psycopg2.Error` there
aborts the loop — appends the table DDL when one was produced, then calls
`get_indexes_ddl`, whose raised formatting error (a non-`psycopg2.Error`)
also aborts the loop; only if it returned would the index block and a blank
separator be appended and the loop continue.  An abort carries the error
kind and the prints made so far (the buffered content is discarded, as the
source never writes it). -/
def exportLoop (d : String → Except String TableData) :
    List String → List String → List String →
      Except (PyErr × List String) (List String × List String)
  | [], content, prints => Except.ok (content, prints)
  | n :: ns, content, prints =>
    match d n with
    | Except.error e =>
        Except.error (PyErr.dbError e, prints ++ [("Exporting table: ") ++ n])
    | Except.ok t =>
      match get_indexes_ddl t with
      | Except.error e =>
          Except.error (PyErr.otherError e, prints ++ [("Exporting table: ") ++ n])
      | Except.ok idx =>
          exportLoop d ns
            (content ++ [("-- Table: ") ++ n, String.mk (List.replicate 50 '-')]
              ++ (match get_table_ddl n t with
                  | some dd => [dd]
                  | none => [])
              ++ (if idx = [] then []
                  else [(""), ("-- Indexes for ") ++ n] ++ idx)
              ++ [("")])
            (prints ++ [("Exporting table: ") ++ n])

/-- `export_database_ddl(host, port, database, user, password, output_file)`
(lines 190-268), together with the process-level behaviour of `main`:
connect, list the base tables, return early printing a message when there
are none, otherwise build the whole document in memory, then write it (to
the file when `output_file` is given, else print it), closing with the
success line; any `psycopg2.Error` prints `Database error: ...` and exits 1,
any other exception (the modelled write failure) prints `Error: ...` and
exits 1; a run that raises nothing exits 0.  The Python function has no
`return <value>` statement, so `retval` is `none` on every path. -/
def export_database_ddl (env : DbEnv) (now : String) (output_file : Option String) :
    ExportRun :=
  match env.connect with
  | Except.error e =>
      { document := none, retval := none,
        printed := [("Database error: ") ++ e], stderr_out := [], exit_code := 1 }
  | Except.ok _ =>
    match env.listing with
    | Except.error e =>
        { document := none, retval := none,
          printed := [("Database error: ") ++ e], stderr_out := [], exit_code := 1 }
    | Except.ok tables =>
      if tables = [] then
        { document := none, retval := none,
          printed := ["No tables found in the database."],
          stderr_out := [], exit_code := 0 }
      else
        match exportLoop env.describe tables
            (docHeader env.database now tables.length) [] with
        | Except.error ep =>
            { document := none, retval := none,
              printed := ep.2 ++ [errLine ep.1],
              stderr_out := [], exit_code := 1 }
        | Except.ok cp =>
          match output_file with
          | some f =>
            match env.write_error with
            | some m =>
                { document := none, retval := none,
                  printed := cp.2 ++ [("Error: ") ++ m],
                  stderr_out := [], exit_code := 1 }
            | none =>
                { document := some (pyJoin ("\n") cp.1), retval := none,
                  printed := cp.2 ++ [("DDL exported to: ") ++ f,
                    ("Successfully exported DDL for ") ++ toString tables.length
                      ++ (" tables.")],
                  stderr_out := [], exit_code := 0 }
          | none =>
              { document := some (pyJoin ("\n") cp.1), retval := none,
                printed := cp.2 ++ [pyJoin ("\n") cp.1,
                  ("Successfully exported DDL for ") ++ toString tables.length
                    ++ (" tables.")],
                stderr_out := [], exit_code := 0 }

/-- The `users` table of the spec's §8 scenario: `id integer primary key not
null, name varchar(50), created_at timestamp with time zone default now()`,
as the catalog queries report it. -/
def usersTable : TableData :=
  { columns :=
      [⟨"id", "integer", none, some 32, some 0, "NO", none⟩,
       ⟨"name", "character varying", some 50, none, none, "YES", none⟩,
       ⟨"created_at", "timestamp with time zone", none, none, none, "YES", some ("now()")⟩],
    primary_keys := ["id"],
    foreign_keys := [],
    indexes :=
      [(("users_pkey"), ("CREATE UNIQUE INDEX users_pkey ON users USING btree (id)")),
       (("idx_users_name"), ("CREATE INDEX idx_users_name ON users USING btree (name)"))] }

/-- The rendering the spec's §8 scenario demands for `usersTable`. -/
def usersExpectedDDL : String :=
  "CREATE TABLE users (\n    id INTEGER NOT NULL,\n    name VARCHAR(50),\n    created_at TIMESTAMPTZ DEFAULT now(),\n    PRIMARY KEY (id)\n);"

/-- A table with columns and a primary key but no foreign keys. -/
def pricesTable : TableData :=
  { columns :=
      [⟨"symbol", "text", none, none, none, "NO", none⟩,
       ⟨"price", "numeric", none, some 10, some 2, "YES", none⟩],
    primary_keys := ["symbol"],
    foreign_keys := [],
    indexes := [] }

/-- A table with one foreign key, so the non-empty branch of the final join
of `get_table_ddl` is exercised. -/
def ordersTable : TableData :=
  { columns :=
      [⟨"id", "integer", none, some 32, some 0, "NO", none⟩,
       ⟨"user_id", "integer", none, some 32, some 0, "YES", none⟩],
    primary_keys := ["id"],
    foreign_keys := [⟨"user_id", "users", "id", "orders_user_id_fkey"⟩],
    indexes := [] }

/-- A table with a two-column primary key in ordinal order `b, a` (not
alphabetical) and no foreign keys. -/
def accountsTable : TableData :=
  { columns :=
      [⟨"a", "integer", none, some 32, some 0, "NO", none⟩,
       ⟨"b", "integer", none, some 32, some 0, "NO", none⟩],
    primary_keys := ["b", "a"],
    foreign_keys := [],
    indexes := [] }

/-- A table with the same two-column primary key in ordinal order `b, a`
and one foreign key, so the primary-key line survives the final join. -/
def deptTable : TableData :=
  { columns :=
      [⟨"a", "integer", none, some 32, some 0, "NO", none⟩,
       ⟨"b", "integer", none, some 32, some 0, "NO", none⟩],
    primary_keys := ["b", "a"],
    foreign_keys := [⟨"a", "zones", "i", "dept_a_fkey"⟩],
    indexes := [] }

/-- A minimal one-column table used by the export environments. -/
def simpleTable : TableData :=
  { columns := [⟨"id", "integer", none, some 32, some 0, "NO", none⟩],
    primary_keys := ["id"],
    foreign_keys := [],
    indexes := [] }

/-- An environment whose schema contains zero base tables. -/
def c3Env : DbEnv :=
  { database := "investment_research",
    connect := Except.ok (),
    listing := Except.ok [],
    describe := fun _ => Except.error "",
    write_error := none }

/-- An environment that lists one table and raises a database error during
that table's catalog queries (inside `get_table_ddl`, before the index
query is reached): a mid-export database failure. -/
def c4Env : DbEnv :=
  { database := "investment_research",
    connect := Except.ok (),
    listing := Except.ok ["aa"],
    describe := fun _ => Except.error ("connection reset by peer"),
    write_error := none }

/-- A perfectly healthy environment: connection, listing and every
per-table catalog query succeed, and the output file is writable. -/
def c9Env : DbEnv :=
  { database := "investment_research",
    connect := Except.ok (),
    listing := Except.ok ["users"],
    describe := fun _ => Except.ok usersTable,
    write_error := none }

/-- An environment whose connection attempt itself raises a database
error. -/
def c8Env : DbEnv :=
  { database := "investment_research",
    connect := Except.error ("connection refused"),
    listing := Except.ok [],
    describe := fun _ => Except.error "",
    write_error := none }

/-- Helper: the placeholder scan of the index query text fails on the
un-doubled percent of `%_pkey` after consuming the two `%s`, so
`get_indexes_ddl` raises on every call, whatever the table. -/
theorem get_indexes_ddl_scan_error (t : TableData) :
    get_indexes_ddl t = Except.error ("unsupported format character _") :=
  rfl

/-- Helper: a printed list ending in a top-level handler message ends in a
`Database error: ` or `Error: ` prefixed line. -/
theorem getLast_errLine_prefixed (l : List String) (pe : PyErr) :
    ∃ m, (l ++ [errLine pe]).getLast? = some (("Database error: ") ++ m)
      ∨ (l ++ [errLine pe]).getLast? = some (("Error: ") ++ m) := by
  cases pe with
  | dbError e => exact ⟨e, Or.inl (List.getLast?_concat _)⟩
  | otherError e => exact ⟨e, Or.inr (List.getLast?_concat _)⟩

/-- Helper: on a nonempty table list the export loop always aborts at its
first table — either the catalog queries raise a database error, or the
index query raises its formatting error. -/
theorem exportLoop_cons_error (d : String → Except String TableData)
    (n : String) (ns : List String) (c p : List String) :
    ∃ ep, exportLoop d (n :: ns) c p = Except.error ep := by
  show ∃ ep, (match d n with
    | Except.error e =>
        Except.error (PyErr.dbError e, p ++ [("Exporting table: ") ++ n])
    | Except.ok t =>
      match get_indexes_ddl t with
      | Except.error e =>
          Except.error (PyErr.otherError e, p ++ [("Exporting table: ") ++ n])
      | Except.ok idx =>
          exportLoop d ns
            (c ++ [("-- Table: ") ++ n, String.mk (List.replicate 50 '-')]
              ++ (match get_table_ddl n t with
                  | some dd => [dd]
                  | none => [])
              ++ (if idx = [] then []
                  else [(""), ("-- Indexes for ") ++ n] ++ idx)
              ++ [("")])
            (p ++ [("Exporting table: ") ++ n])) = Except.error ep
  cases hd : d n with
  | error e => exact ⟨_, rfl⟩
  | ok t =>
      exact ⟨(PyErr.otherError ("unsupported format character _"),
        p ++ [("Exporting table: ") ++ n]), rfl⟩

/-- Helper: every run of `export_database_ddl` writes nothing to the error
stream, returns Python `None`, and either exits 0, or exits 1 having
written no document and having ended its printed output with a message
whose prefix is `Database error: ` or `Error: `. -/
theorem export_run_shape (env : DbEnv) (now : String) (f : Option String) :
    (export_database_ddl env now f).stderr_out = []
    ∧ (export_database_ddl env now f).retval = none
    ∧ ((export_database_ddl env now f).exit_code = 0
        ∨ ((export_database_ddl env now f).exit_code = 1
            ∧ (export_database_ddl env now f).document = none
            ∧ ∃ m, (export_database_ddl env now f).printed.getLast?
                  = some (("Database error: ") ++ m)
              ∨ (export_database_ddl env now f).printed.getLast?
                  = some (("Error: ") ++ m))) := by
  unfold export_database_ddl
  repeat' split
  all_goals first
    | exact ⟨rfl, rfl, Or.inl rfl⟩
    | exact ⟨rfl, rfl, Or.inr ⟨rfl, rfl, ⟨_, Or.inl rfl⟩⟩⟩
    | exact ⟨rfl, rfl, Or.inr ⟨rfl, rfl, getLast_errLine_prefixed _ _⟩⟩
    | exact ⟨rfl, rfl, Or.inr ⟨rfl, rfl, ⟨_, Or.inr (List.getLast?_concat _)⟩⟩⟩

/-- Claim C1: the spec's §8 scenario table `users` should render as the full
`CREATE TABLE users (...)` block.  The code disagrees: because the final
join slices `ddl_lines[:0]` when there are no foreign keys, `get_table_ddl`
returns just the closing fragment, which differs from the text the claim
demands. -/
theorem users_table_renders_only_close_paren :
    get_table_ddl ("users") usersTable = some ("\n);")
    ∧ ("\n);" : String) ≠ usersExpectedDDL :=
  ⟨rfl, by decide⟩

/-- Claim C2: `get_table_ddl` should emit `CREATE TABLE <name> (` followed
by comma-joined column, primary-key and foreign-key lines.  The code
disagrees on both join branches: with no foreign keys every line is dropped
(`prices`), and with foreign keys the opening line is comma-joined with the
column lines, yielding `CREATE TABLE orders (,` (`orders`). -/
theorem table_ddl_join_drops_or_mangles_lines :
    get_table_ddl ("prices") pricesTable = some ("\n);")
    ∧ get_table_ddl ("orders") ordersTable =
        some ("CREATE TABLE orders (,\n    id INTEGER NOT NULL,\n    user_id INTEGER,\n    PRIMARY KEY (id),\n    CONSTRAINT orders_user_id_fkey FOREIGN KEY (user_id) REFERENCES users(id)\n);") :=
  ⟨rfl, rfl⟩

/-- Claim C3 (amended): `export_database_ddl` has no `return <value>`
statement, so its Python return value is `None` on every path — never a
table count — and on a schema with zero tables it prints
`No tables found in the database.`, produces no output document at all (in
particular no `Total Tables: 0` header), and the process exits 0. -/
theorem export_returns_no_count_and_empty_schema_prints (env : DbEnv) (now : String)
    (f : Option String) :
    (export_database_ddl env now f).retval = none
    ∧ (env.connect = Except.ok () → env.listing = Except.ok [] →
        export_database_ddl env now f =
          { document := none, retval := none,
            printed := ["No tables found in the database."],
            stderr_out := [], exit_code := 0 }) := by
  refine ⟨(export_run_shape env now f).2.1, ?_⟩
  intro h1 h2
  unfold export_database_ddl
  rw [h1, h2]
  rfl

/-- Witness for the C3 theorem at the concrete zero-table environment. -/
theorem export_empty_schema_witness :
    export_database_ddl c3Env ("2026-10-12 00:00:00") none =
      { document := none, retval := none,
        printed := ["No tables found in the database."],
        stderr_out := [], exit_code := 0 } :=
  (export_returns_no_count_and_empty_schema_prints c3Env ("2026-10-12 00:00:00") none).2
    rfl rfl

/-- Counterexample to claim C3 as stated: on the zero-table environment the
run produces no document (so no `Total Tables: 0` header) and does not
return `0`. -/
theorem empty_schema_produces_no_header_and_no_count :
    (export_database_ddl c3Env ("2026-10-12 00:00:00") none).document = none
    ∧ (export_database_ddl c3Env ("2026-10-12 00:00:00") none).retval ≠ some 0 :=
  ⟨rfl, by decide⟩

/-- Claim C4 (amended): when a run of `export_database_ddl` fails (exit
code 1) and the output write itself did not fail, nothing has been written
to the destination: the document is buffered in memory and the single
write happens only after the whole loop completes, so a mid-export
database error leaves no output file at all rather than a truncated one —
in fact no table is ever fully processed, since at the latest the first
table's index query raises.  (The single write is modelled as atomic; a
failure of the write itself is the `write_error` case excluded by the
hypothesis.) -/
theorem db_error_mid_export_writes_nothing (env : DbEnv) (now : String)
    (f : Option String) ( _hw : env.write_error = none)
    (h1 : (export_database_ddl env now f).exit_code = 1) :
    (export_database_ddl env now f).document = none := by
  rcases (export_run_shape env now f).2.2 with h0 | hh
  · exact absurd (h0.symm.trans h1) (by decide)
  · exact hh.2.1

/-- Witness for the C4 theorem at the environment whose second table's
catalog queries raise a database error. -/
theorem db_error_mid_export_writes_nothing_witness :
    (export_database_ddl c4Env ("2026-10-12 00:00:00") (some ("schema.sql"))).document
      = none :=
  db_error_mid_export_writes_nothing c4Env ("2026-10-12 00:00:00") (some ("schema.sql"))
    rfl (by decide)

/-- Counterexample to claim C4 as stated: a run that had started exporting
(`Exporting table: aa` was printed) and then failed mid-export with a
database error inside that table's catalog queries prints
`Database error: connection reset by peer`, exits 1, and leaves no
document at the destination — not a truncated file. -/
theorem mid_export_failure_leaves_no_truncated_file :
    (("Exporting table: ") ++ ("aa"))
        ∈ (export_database_ddl c4Env ("2026-10-12 00:00:00") (some ("out.sql"))).printed
    ∧ (export_database_ddl c4Env ("2026-10-12 00:00:00") (some ("out.sql"))).printed.getLast?
        = some (("Database error: ") ++ ("connection reset by peer"))
    ∧ (export_database_ddl c4Env ("2026-10-12 00:00:00") (some ("out.sql"))).exit_code = 1
    ∧ (export_database_ddl c4Env ("2026-10-12 00:00:00") (some ("out.sql"))).document
        = none :=
  ⟨by decide, by decide, by decide, by decide⟩

/-- Claim C5: the rendered type token follows the §4.1 mapping table for
every enumerated source type — `character varying`/`character` with and
without a (positive) length, `numeric` with both, only, or neither of a
positive precision and scale, the nine fixed-token types — and every other
source type renders as its raw name upper-cased with no parameters. -/
theorem mapType_follows_spec_table :
    (∀ p s n, n ≠ 0 →
        mapType ("character varying") (some n) p s = "VARCHAR(" ++ toString n ++ ")")
    ∧ (∀ p s, mapType ("character varying") none p s = "VARCHAR")
    ∧ (∀ p s n, n ≠ 0 →
        mapType ("character") (some n) p s = "CHAR(" ++ toString n ++ ")")
    ∧ (∀ p s, mapType ("character") none p s = "CHAR")
    ∧ (∀ l pn sn, pn ≠ 0 → sn ≠ 0 →
        mapType ("numeric") l (some pn) (some sn)
          = "NUMERIC(" ++ toString pn ++ "," ++ toString sn ++ ")")
    ∧ (∀ l pn, pn ≠ 0 →
        mapType ("numeric") l (some pn) none = "NUMERIC(" ++ toString pn ++ ")")
    ∧ (∀ l s, mapType ("numeric") l none s = "NUMERIC")
    ∧ (∀ l p s, mapType ("integer") l p s = "INTEGER")
    ∧ (∀ l p s, mapType ("bigint") l p s = "BIGINT")
    ∧ (∀ l p s, mapType ("smallint") l p s = "SMALLINT")
    ∧ (∀ l p s, mapType ("boolean") l p s = "BOOLEAN")
    ∧ (∀ l p s, mapType ("date") l p s = "DATE")
    ∧ (∀ l p s, mapType ("timestamp without time zone") l p s = "TIMESTAMP")
    ∧ (∀ l p s, mapType ("timestamp with time zone") l p s = "TIMESTAMPTZ")
    ∧ (∀ l p s, mapType ("text") l p s = "TEXT")
    ∧ (∀ l p s, mapType ("json") l p s = "JSON")
    ∧ (∀ l p s, mapType ("jsonb") l p s = "JSONB")
    ∧ (∀ dt l p s, dt ≠ "character varying" → dt ≠ "character" → dt ≠ "numeric" →
        dt ≠ "integer" → dt ≠ "bigint" → dt ≠ "smallint" → dt ≠ "boolean" →
        dt ≠ "date" → dt ≠ "timestamp without time zone" →
        dt ≠ "timestamp with time zone" → dt ≠ "text" → dt ≠ "json" → dt ≠ "jsonb" →
        mapType dt l p s = pyStrUpper dt) := by
  refine ⟨?_, ?_, ?_, ?_, ?_, ?_, ?_, ?_, ?_, ?_, ?_, ?_, ?_, ?_, ?_, ?_, ?_, ?_⟩
  · intro p s n hn
    simp [mapType, truthyNat, hn]
  · intro p s
    rfl
  · intro p s n hn
    simp [mapType, truthyNat, hn]
  · intro p s
    rfl
  · intro l pn sn hp hs
    simp [mapType, truthyNat, hp, hs]
  · intro l pn hp
    simp [mapType, truthyNat, hp]
  · intro l s
    simp [mapType, truthyNat]
  · intro l p s
    rfl
  · intro l p s
    rfl
  · intro l p s
    rfl
  · intro l p s
    rfl
  · intro l p s
    rfl
  · intro l p s
    rfl
  · intro l p s
    rfl
  · intro l p s
    rfl
  · intro l p s
    rfl
  · intro l p s
    rfl
  · intro dt l p s h1 h2 h3 h4 h5 h6 h7 h8 h9 h10 h11 h12 h13
    simp [mapType, h1, h2, h3, h4, h5, h6, h7, h8, h9, h10, h11, h12, h13]

/-- Witness for the C5 theorem: a `numeric(10,2)` column and the unlisted
type `uuid` at concrete inputs. -/
theorem mapType_follows_spec_table_witness :
    mapType ("numeric") none (some 10) (some 2) = "NUMERIC(10,2)"
    ∧ mapType ("uuid") none none none = "UUID" := by
  have h := mapType_follows_spec_table
  refine ⟨by simpa using h.2.2.2.2.1 none 10 2 (by decide) (by decide), ?_⟩
  have h2 :=
    h.2.2.2.2.2.2.2.2.2.2.2.2.2.2.2.2.2 ("uuid") none none none (by decide)
      (by decide) (by decide) (by decide) (by decide) (by decide) (by decide)
      (by decide) (by decide) (by decide) (by decide) (by decide) (by decide)
  rw [h2]
  decide

/-- Claim C6: the claim says `get_indexes_ddl` returns each non-primary-key
index's engine-provided definition with `;` appended.  The code disagrees:
the call passes parameters while the query text holds the un-doubled
percent of the literal `%_pkey` (line 178), so the driver's placeholder
interpolation raises on every single call — after consuming the two `%s`
it hits `%_` — and the function never returns any index definitions at
all. -/
theorem get_indexes_ddl_never_returns (t : TableData) :
    get_indexes_ddl t = Except.error ("unsupported format character _")
    ∧ ∀ l, get_indexes_ddl t ≠ Except.ok l :=
  ⟨rfl, fun _ h => Except.noConfusion h⟩

/-- Claim C7: the claim says every table with a primary key gets a
`PRIMARY KEY (...)` line in key-ordinal order.  The code disagrees for
tables without foreign keys: the final join drops every line including the
primary-key line (the rendered text contains no `P` at all), while for a
table with a foreign key the line does survive with the columns in ordinal
order `(b, a)`, not alphabetical. -/
theorem primary_key_line_lost_without_foreign_keys :
    get_table_ddl ("accounts") accountsTable = some ("\n);")
    ∧ (∀ ch ∈ ("\n);" : String).data, ch ≠ 'P')
    ∧ get_table_ddl ("dept") deptTable =
        some ("CREATE TABLE dept (,\n    a INTEGER NOT NULL,\n    b INTEGER NOT NULL,\n    PRIMARY KEY (b, a),\n    CONSTRAINT dept_a_fkey FOREIGN KEY (a) REFERENCES zones(i)\n);") :=
  ⟨rfl, by decide, rfl⟩

/-- Claim C8 (amended): every run of `export_database_ddl` writes nothing
to the error stream; the exit code is always 0 or 1; and every run that
exits 1 ends its standard-output messages with `Database error: <e>` or
`Error: <e>` — i.e. errors are caught at the top level and printed with a
short prefix to standard output, not to the error stream. -/
theorem export_errors_print_to_stdout (env : DbEnv) (now : String) (f : Option String) :
    (export_database_ddl env now f).stderr_out = []
    ∧ ((export_database_ddl env now f).exit_code = 0
        ∨ (export_database_ddl env now f).exit_code = 1)
    ∧ ((export_database_ddl env now f).exit_code = 1 →
        ∃ m, (export_database_ddl env now f).printed.getLast?
              = some (("Database error: ") ++ m)
          ∨ (export_database_ddl env now f).printed.getLast?
              = some (("Error: ") ++ m)) := by
  refine ⟨(export_run_shape env now f).1, ?_, ?_⟩
  · rcases (export_run_shape env now f).2.2 with h0 | hh
    · exact Or.inl h0
    · exact Or.inr hh.1
  · intro h1
    rcases (export_run_shape env now f).2.2 with h0 | hh
    · exact absurd (h0.symm.trans h1) (by decide)
    · exact hh.2.2

/-- Witness for the C8 theorem at the environment whose connection attempt
raises a database error. -/
theorem export_errors_print_to_stdout_witness :
    (export_database_ddl c8Env ("t") none).stderr_out = []
    ∧ ((export_database_ddl c8Env ("t") none).exit_code = 0
        ∨ (export_database_ddl c8Env ("t") none).exit_code = 1)
    ∧ (∃ m, (export_database_ddl c8Env ("t") none).printed.getLast?
          = some (("Database error: ") ++ m)
        ∨ (export_database_ddl c8Env ("t") none).printed.getLast?
          = some (("Error: ") ++ m)) := by
  have h := export_errors_print_to_stdout c8Env ("t") none
  exact ⟨h.1, h.2.1, h.2.2 (by decide)⟩

/-- Counterexample to claim C8 as stated: on a connection failure the
message `Database error: connection refused` is printed to standard output
while the error stream stays empty, so the error is not printed to the
error stream. -/
theorem db_error_message_goes_to_stdout :
    (("Database error: ") ++ ("connection refused"))
        ∈ (export_database_ddl c8Env ("2026-10-12 00:00:00") none).printed
    ∧ (export_database_ddl c8Env ("2026-10-12 00:00:00") none).stderr_out = []
    ∧ (export_database_ddl c8Env ("2026-10-12 00:00:00") none).exit_code = 1 :=
  ⟨by decide, rfl, rfl⟩

/-- Claim C9: the claim compares the documents two invocations produce
against an unchanged database.  The code disagrees with its premise: no
invocation ever produces a document.  With zero tables the function
returns before building one; with at least one table the loop aborts
during the first table — at the latest when its index query's placeholder
interpolation raises — and the process exits 1 before the single write is
reached.  Shown for every environment, and concretely on a perfectly
healthy database (`c9Env`), whose run still exits 1 with the formatting
error as its last printed line. -/
theorem export_never_writes_document :
    (∀ (env : DbEnv) (now : String) (f : Option String),
        (export_database_ddl env now f).document = none)
    ∧ (export_database_ddl c9Env ("2026-10-12 00:00:00") (some ("schema.sql"))).exit_code
        = 1
    ∧ (export_database_ddl c9Env ("2026-10-12 00:00:00")
        (some ("schema.sql"))).printed.getLast?
        = some (("Error: ") ++ ("unsupported format character _")) := by
  refine ⟨?_, by decide, by decide⟩
  intro env now f
  cases hc : env.connect with
  | error e => simp [export_database_ddl, hc]
  | ok u =>
    cases hl : env.listing with
    | error e => simp [export_database_ddl, hc, hl]
    | ok tables =>
      cases tables with
      | nil => simp [export_database_ddl, hc, hl]
      | cons n ns =>
        obtain ⟨ep, hep⟩ := exportLoop_cons_error env.describe n ns
          (docHeader env.database now (n :: ns).length) []
        simp only [export_database_ddl, hc, hl]
        rw [if_neg (List.cons_ne_nil n ns), hep]

/-- Claim C10: a `numeric` column with nonzero precision `p` and scale `0`
renders as `NUMERIC(p)` (a zero scale is falsy in the source's truthiness
test, like an absent scale), and a `numeric` column with precision `0`
renders as bare `NUMERIC` whatever the scale. -/
theorem numeric_zero_scale_or_precision (l s : Option Nat) (p : Nat) :
    (p ≠ 0 → mapType ("numeric") l (some p) (some 0) = "NUMERIC(" ++ toString p ++ ")")
    ∧ mapType ("numeric") l (some 0) s = "NUMERIC" := by
  constructor
  · intro hp
    simp [mapType, truthyNat, hp]
  · simp [mapType, truthyNat]

/-- Witness for the C10 theorem at precision 10 and scale 0. -/
theorem numeric_zero_scale_or_precision_witness :
    mapType ("numeric") none (some 10) (some 0) = "NUMERIC(10)"
    ∧ mapType ("numeric") none (some 0) none = "NUMERIC" :=
  ⟨(numeric_zero_scale_or_precision none none 10).1 (by decide),
   (numeric_zero_scale_or_precision none none 10).2⟩

end RockMarketLab
